import Mathlib

/-!
Shallow embedding of `src/analysis/benfords_law.py` (class `BenfordsLawAnalyzer`).

Data values of a pandas column are modelled as `Option ℚ` (a Python float is a
rational number; `none` is a null/NaN entry).  Probabilities, test statistics
and thresholds are modelled as real numbers.  Raised Python exceptions are
modelled with `Except String`, carrying the message of the `ValueError`.
The mutable analyzer instance is modelled as an explicit `AnalyzerState`
threaded through `analyze`; methods that mutate `self` before raising return
the partially mutated state together with the error.
-/

namespace BenfordsLaw

/-- Repeatedly divide by 10 until a single digit remains; structural fuel
recursion so that the kernel can evaluate it (`n` itself bounds the number of
divisions needed). -/
def leadDigitAux : ℕ → ℕ → ℕ
  | 0, n => n
  | fuel + 1, n => if n < 10 then n else leadDigitAux fuel (n / 10)

/-- Leading decimal digit of a natural number: `leadDigit 123 = 1`.
Used to model the first character of the decimal string of an integer part. -/
def leadDigit (n : ℕ) : ℕ :=
  leadDigitAux n n

/-- Auxiliary scaling loop for the leading significant digit of a small
positive rational: multiply by 10 until the value reaches 1. -/
def leadSigAux (fuel : ℕ) (q : ℚ) : ℕ :=
  match fuel with
  | 0 => 0
  | fuel + 1 => if 1 ≤ q then leadDigit ⌊q⌋.toNat else leadSigAux fuel (10 * q)

/-- Models `str(x)[0]` cast to `int`, for a positive float value `x`
(the code applies it after `abs` and after filtering out zeros and nulls):
* for `x ≥ 1` the decimal string starts with the leading digit of the integer
  part (Python prints values below `1e16` in fixed point; at or above `1e16`
  scientific notation starts with the leading significant digit, which for
  such values equals the leading digit of the integer part);
* for `1e-4 ≤ x < 1` the fixed-point string starts with the character `0`;
* for `0 < x < 1e-4` Python prints scientific notation, whose first character
  is the leading significant digit.
The fuel `q.den` suffices: a positive rational `q` satisfies `q ≥ 1 / q.den`,
so at most `q.den` scalings by 10 reach 1. -/
def firstDigitChar (q : ℚ) : ℕ :=
  if 1 ≤ q then leadDigit ⌊q⌋.toNat
  else if 1 ≤ 10000 * q then 0
  else leadSigAux q.den (10 * q)

/-- `_extract_first_digits` (benfords_law.py, lines 64-95): take absolute
values, keep entries that are non-null and strictly positive, take the first
character of the decimal string of each, and keep only digits 1-9.
(The early return for an empty filtered series returns an empty series,
which coincides with mapping and filtering the empty list.) -/
def extractFirstDigits (data : List (Option ℚ)) : List ℕ :=
  let abs_data := data.map (Option.map (fun x => |x|))
  let valid_data := (abs_data.filterMap id).filter (fun x => 0 < x)
  let first_digits := valid_data.map firstDigitChar
  first_digits.filter (fun d => 1 ≤ d && d ≤ 9)

/-- `_calculate_theoretical_distribution` (lines 29-35): the dict
`{d : log10 (1 + 1/d) for d in range(1, 10)}`, modelled as a function on ℕ
(lookups in the code only ever use keys 1..9). -/
noncomputable def calculateTheoreticalDistribution : ℕ → ℝ :=
  fun digit => Real.logb 10 (1 + 1 / digit)

/-- `_calculate_observed_distribution` (lines 37-62): for an empty series the
all-zero dict on digits 1..9; otherwise the dict initialised to 0 on 1..9 and
set to `count / total` for every digit of the series lying in 1..9.  Modelled
as a function on ℕ; a `.get(d, 0)` lookup outside 1..9 yields the default 0,
matching the branch below. -/
noncomputable def calculateObservedDistribution (first_digits : List ℕ) : ℕ → ℝ :=
  fun d =>
    if first_digits = [] then 0
    else if 1 ≤ d ∧ d ≤ 9 then (first_digits.count d : ℝ) / first_digits.length
    else 0

/-- The mutable fields of a `BenfordsLawAnalyzer` instance
(`__init__`, lines 17-23). -/
structure AnalyzerState where
  theoretical_distribution : ℕ → ℝ
  observed_distribution : Option (ℕ → ℝ)
  field_name : Option String
  raw_data : Option (List (Option ℚ))
  valid_data : Option (List ℕ)

/-- `__init__`: the theoretical distribution is computed once here; the other
fields start as `None`. -/
noncomputable def initState : AnalyzerState :=
  { theoretical_distribution := calculateTheoreticalDistribution
    observed_distribution := none
    field_name := none
    raw_data := none
    valid_data := none }

open scoped Classical

/-- `max` of Python applied to a nonempty sequence; the empty case is
unreachable in the source (Python `max` raises on an empty sequence). -/
def pyMax : List ℝ → ℝ
  | [] => 0
  | a :: l => l.foldl max a

/-- Result dict of `_chi_square_test` (lines 130-140).  `significant` is the
proposition `p_value < alpha`; the interpretation string, a formatting of
`alpha`, carries no further information and is not modelled. -/
structure ChiSquareResult where
  statistic : ℝ
  p_value : ℝ
  degrees_of_freedom : ℕ
  significant : Prop

/-- Result dict of `_kolmogorov_smirnov_test` (lines 192-202).  `significant`
is the proposition `statistic > critical_value`; the interpretation string is
not modelled. -/
structure KSResult where
  statistic : ℝ
  critical_value : ℝ
  confidence_level : ℝ
  significant : Prop

/-- Result dict of `_mean_absolute_deviation` (lines 238-242); the
interpretation string (a 6-decimal formatting of `mad`) is not modelled. -/
structure MADResult where
  mad : ℝ
  conformity_level : String

/-- `_chi_square_test` (lines 97-140).  The call to `scipy.stats.chisquare`
is a third-party collaborator, modelled by the parameter `chisquare` mapping
the observed and expected count lists to the pair (statistic, p-value).
`self.valid_data` is read with default `[]`: in every state the source can
reach, `valid_data` is set whenever `observed_distribution` is (both are
assigned only by `analyze`), so the default is never used. -/
noncomputable def chiSquareTest (chisquare : List ℝ → List ℝ → ℝ × ℝ)
    (st : AnalyzerState) (alpha : ℝ) : Except String ChiSquareResult :=
  match st.observed_distribution with
  | none => .error "Must run analyze() first"
  | some obs =>
    let total_observations : ℕ := (st.valid_data.getD []).length
    let observed_counts :=
      (List.range' 1 9).map (fun digit => obs digit * total_observations)
    let expected_counts :=
      (List.range' 1 9).map
        (fun digit => st.theoretical_distribution digit * total_observations)
    let r := chisquare observed_counts expected_counts
    .ok { statistic := r.1
          p_value := r.2
          degrees_of_freedom := 8
          significant := r.2 < alpha }

/-- The dict `critical_values_map` of `_kolmogorov_smirnov_test`
(lines 159-163), as a lookup: `confidence_level not in critical_values_map`
corresponds to a `none` result. -/
noncomputable def criticalValuesMap (confidence_level : ℝ) : Option ℝ :=
  if confidence_level = 0.90 then some 1.22
  else if confidence_level = 0.95 then some 1.36
  else if confidence_level = 0.99 then some 1.63
  else none

/-- `_kolmogorov_smirnov_test` (lines 142-202).  The cumulative lists mirror
the running-sum loop of lines 170-179; the statistic is the Python `max` over
the zipped absolute differences (lines 182-185).  As in `chiSquareTest`,
`valid_data` is read with a default that reachable states never use. -/
noncomputable def kolmogorovSmirnovTest (st : AnalyzerState)
    (confidence_level : ℝ) : Except String KSResult :=
  match st.observed_distribution with
  | none => .error "Must run analyze() first"
  | some obs =>
    match criticalValuesMap confidence_level with
    | none => .error "Invalid confidence level. Choose from [0.9, 0.95, 0.99]"
    | some critical_value_multiplier =>
      let observed_cumulative :=
        ((List.range' 1 9).scanl (fun acc digit => acc + obs digit) 0).tail
      let theoretical_cumulative :=
        ((List.range' 1 9).scanl
          (fun acc digit => acc + st.theoretical_distribution digit) 0).tail
      let ks_statistic :=
        pyMax ((observed_cumulative.zip theoretical_cumulative).map
          (fun p => |p.1 - p.2|))
      let n : ℕ := (st.valid_data.getD []).length
      let critical_value := critical_value_multiplier / Real.sqrt n
      .ok { statistic := ks_statistic
            critical_value := critical_value
            confidence_level := confidence_level
            significant := ks_statistic > critical_value }

/-- The conformity banding of `_mean_absolute_deviation` (lines 229-236). -/
noncomputable def madConformity (mad : ℝ) : String :=
  if mad < 0.006 then
    "Low Dispersion: Indicates a very close fit to Benford\x27s Law."
  else if mad < 0.012 then
    "Acceptable Dispersion: Indicates a good fit to Benford\x27s Law, typical for clean data."
  else if mad < 0.015 then
    "Marginal Dispersion: Suggests some deviation from Benford\x27s Law, which may be acceptable."
  else
    "High Dispersion: Indicates significant deviation from Benford\x27s Law, suggesting potential data anomalies."

/-- `_mean_absolute_deviation` (lines 204-242): the deviations list of
lines 220-224 and `np.mean` of it (sum divided by length). -/
noncomputable def meanAbsoluteDeviation (st : AnalyzerState) :
    Except String MADResult :=
  match st.observed_distribution with
  | none => .error "Must run analyze() first"
  | some obs =>
    let deviations :=
      (List.range' 1 9).map
        (fun digit => |obs digit - st.theoretical_distribution digit|)
    let mad := deviations.sum / deviations.length
    .ok { mad := mad, conformity_level := madConformity mad }

/-- `_generate_summary` (lines 244-269): count the favourable outcomes
(chi-square not significant, KS not significant, MAD below 0.015) and choose
the verdict string by a two-of-three vote. -/
noncomputable def generateSummary (chi2_result : ChiSquareResult)
    (ks_result : KSResult) (mad_result : MADResult) : String :=
  let tests_agree_conformity : ℕ :=
    (if ¬chi2_result.significant then 1 else 0) +
    (if ¬ks_result.significant then 1 else 0) +
    (if mad_result.mad < 0.015 then 1 else 0)
  if tests_agree_conformity ≥ 2 then
    "The data likely follows Benford\x27s Law. " ++ mad_result.conformity_level ++ " detected."
  else
    "The data likely does not follow Benford\x27s Law. Multiple tests indicate deviation."

/-- A pandas DataFrame restricted to what the analyzer uses: named numeric
columns with null entries, i.e. an association list from column name to
column values (pandas column names are unique). -/
abbrev DataFrame := List (String × List (Option ℚ))

/-- Python `str` of the column-name list, as in the message of line 297. -/
def pyStrColumns (cols : List String) : String :=
  "[" ++ String.intercalate ", " (cols.map (fun c => "\x27" ++ c ++ "\x27")) ++ "]"

/-- The result dict of `analyze` (lines 321-333). -/
structure AnalysisReport where
  field_name : String
  total_values : ℕ
  valid_values : ℕ
  theoretical_distribution : ℕ → ℝ
  observed_distribution : ℕ → ℝ
  chi_square_test : ChiSquareResult
  ks_test : KSResult
  mean_absolute_deviation : MADResult
  summary : String

/-- `analyze` (lines 273-335).  Returns the instance state after the call
together with either the report or the raised error: assignments to `self`
made before a raise persist, so the state is threaded explicitly.  The
`field not in df.columns` test of line 295 corresponds to association-list
lookup failure (column names are unique). -/
noncomputable def analyze (chisquare : List ℝ → List ℝ → ℝ × ℝ)
    (st : AnalyzerState) (df : DataFrame) (field : String)
    (alpha : ℝ) (ks_confidence : ℝ) :
    AnalyzerState × Except String AnalysisReport :=
  match df.lookup field with
  | none =>
    (st, .error ("Field \x27" ++ field ++ "\x27 not found in DataFrame columns: "
      ++ pyStrColumns (df.map Prod.fst)))
  | some col =>
    let st1 := { st with field_name := some field, raw_data := some col }
    let first_digits := extractFirstDigits col
    if first_digits = [] then
      (st1, .error ("No valid data found in field \x27" ++ field
        ++ "\x27 for Benford\x27s Law analysis"))
    else
      let st2 := { st1 with
        valid_data := some first_digits
        observed_distribution := some (calculateObservedDistribution first_digits) }
      match chiSquareTest chisquare st2 alpha with
      | .error e => (st2, .error e)
      | .ok chi_square_result =>
        match kolmogorovSmirnovTest st2 ks_confidence with
        | .error e => (st2, .error e)
        | .ok ks_test_result =>
          match meanAbsoluteDeviation st2 with
          | .error e => (st2, .error e)
          | .ok mad_result =>
            (st2, .ok
              { field_name := field
                total_values := col.length
                valid_values := first_digits.length
                theoretical_distribution := st2.theoretical_distribution
                observed_distribution := calculateObservedDistribution first_digits
                chi_square_test := chi_square_result
                ks_test := ks_test_result
                mean_absolute_deviation := mad_result
                summary := generateSummary chi_square_result ks_test_result mad_result })

/-- Assignment `results[field] = v` on a Python dict modelled as an
association list: overwrite in place if the key is present, else append. -/
def dictSet {α : Type} (l : List (String × α)) (k : String) (v : α) :
    List (String × α) :=
  if l.any (fun p => p.1 = k) then
    l.map (fun p => if p.1 = k then (k, v) else p)
  else l ++ [(k, v)]

/-- The loop of `batch_analyze` (lines 355-367): run `analyze` per field on
the same instance, storing the report on success and the error record
(`{"error": str(e)}`, here `Except.error`) on failure, and continue. -/
noncomputable def batchAnalyzeAux (chisquare : List ℝ → List ℝ → ℝ × ℝ)
    (st : AnalyzerState) (df : DataFrame) (fields : List String)
    (alpha : ℝ) (ks_confidence : ℝ)
    (results : List (String × Except String AnalysisReport)) :
    AnalyzerState × List (String × Except String AnalysisReport) :=
  match fields with
  | [] => (st, results)
  | field :: rest =>
    let r := analyze chisquare st df field alpha ks_confidence
    batchAnalyzeAux chisquare r.1 df rest alpha ks_confidence
      (dictSet results field r.2)

/-- `batch_analyze` (lines 337-367). -/
noncomputable def batchAnalyze (chisquare : List ℝ → List ℝ → ℝ × ℝ)
    (st : AnalyzerState) (df : DataFrame) (fields : List String)
    (alpha : ℝ) (ks_confidence : ℝ) :
    AnalyzerState × List (String × Except String AnalysisReport) :=
  batchAnalyzeAux chisquare st df fields alpha ks_confidence []

/-! Theorems. -/

/-- Example state of an analyzer after one successful `analyze` call on a
one-element column; used to instantiate theorems with hypotheses. -/
noncomputable def someAnalyzedState : AnalyzerState :=
  { theoretical_distribution := calculateTheoreticalDistribution
    observed_distribution := some (calculateObservedDistribution [1])
    field_name := some "marketCap"
    raw_data := some [some 1]
    valid_data := some [1] }

/-- Evaluation of the digit extraction on the example input of the spec
(0.00123 written as the rational it denotes): the value 0.00123 is dropped,
because its decimal string starts with the character 0, which the final
digit filter removes. -/
lemma extractFirstDigits_example_eval :
    extractFirstDigits [some 123, some (-123), some 0.00123, some 999999] = [1, 1, 9] := by
  have f1 : firstDigitChar (123 : ℚ) = 1 := by
    rw [firstDigitChar, if_pos (by norm_num : (1 : ℚ) ≤ 123)]; norm_num; decide
  have f3 : firstDigitChar ((123 : ℚ) / 100000) = 0 := by
    rw [firstDigitChar, if_neg (by norm_num : ¬(1 : ℚ) ≤ 123 / 100000),
      if_pos (by norm_num : (1 : ℚ) ≤ 10000 * (123 / 100000))]
  have f4 : firstDigitChar (999999 : ℚ) = 9 := by
    rw [firstDigitChar, if_pos (by norm_num : (1 : ℚ) ≤ 999999)]; norm_num; decide
  have e2 : |(-123 : ℚ)| = 123 := by norm_num
  have e3 : |(0.00123 : ℚ)| = 0.00123 := abs_of_nonneg (by norm_num)
  simp only [extractFirstDigits, List.map_cons, List.map_nil, Option.map_some',
    List.filterMap_cons, List.filterMap_nil, id_eq, List.filter_cons, List.filter_nil,
    abs_of_nonneg (by norm_num : (0 : ℚ) ≤ 123), e2, e3,
    abs_of_nonneg (by norm_num : (0 : ℚ) ≤ 999999)]
  norm_num [f1, f3, f4]

/-- C1 counterexample: on the input sequence `[123, -123, 0.00123, 999999]`
the extraction does NOT produce `[1, 1, 1, 9]` as the claim states: the
decimal string of 0.00123 starts with the character 0, so that value is
removed by the digits-1-to-9 filter. -/
theorem extractFirstDigits_spec_example_refuted :
    ¬(extractFirstDigits [some 123, some (-123), some 0.00123, some 999999] = [1, 1, 1, 9]) := by
  rw [extractFirstDigits_example_eval]
  decide

/-- C1 amended: the extracted digits for `[123, -123, 0.00123, 999999]` are
`[1, 1, 9]`: a value of magnitude in `[1e-4, 1)` — such as 0.00123 — prints
in fixed point, so its decimal string starts with the character 0 and it is
dropped by the digit filter (values below 1e-4 print in scientific notation
and are outside this amendment); null and zero inputs are dropped rather
than mapped to a digit, and every retained digit lies in 1..9. -/
theorem extractFirstDigits_corrected :
    extractFirstDigits [some 123, some (-123), some 0.00123, some 999999] = [1, 1, 9] ∧
    (∀ (data : List (Option ℚ)) (q : ℚ), 1 / 10000 ≤ |q| → |q| < 1 →
      extractFirstDigits (some q :: data) = extractFirstDigits data) ∧
    (∀ data : List (Option ℚ), extractFirstDigits (none :: data) = extractFirstDigits data) ∧
    (∀ data : List (Option ℚ), extractFirstDigits (some 0 :: data) = extractFirstDigits data) ∧
    (∀ data : List (Option ℚ), (extractFirstDigits data).all (fun d => 1 ≤ d && d ≤ 9)) := by
  refine ⟨extractFirstDigits_example_eval, ?_, ?_, ?_, ?_⟩
  · intro data q h1 h2
    have hpos : (0 : ℚ) < |q| := lt_of_lt_of_le (by norm_num) h1
    have hfdc : firstDigitChar |q| = 0 := by
      rw [firstDigitChar, if_neg (not_le.mpr h2), if_pos (by linarith)]
    simp [extractFirstDigits, hpos, hfdc]
  · intro data
    simp [extractFirstDigits]
  · intro data
    simp [extractFirstDigits]
  · intro data
    simp only [extractFirstDigits, List.all_eq_true]
    intro d hd
    exact (List.mem_filter.mp hd).2

/-- Witness for C1 amended: 0.00123 has magnitude in `[1e-4, 1)` and is
dropped by the extraction. -/
theorem extractFirstDigits_corrected_witness :
    extractFirstDigits [some 0.00123] = extractFirstDigits [] :=
  extractFirstDigits_corrected.2.1 [] 0.00123
    (by rw [abs_of_nonneg (by norm_num)]; norm_num)
    (by rw [abs_of_nonneg (by norm_num)]; norm_num)

/-- C9: each of the three test methods raises `ValueError("Must run
analyze() first")` when the observed distribution has not been set by a
successful `analyze` call. -/
theorem test_methods_require_analyze (st : AnalyzerState)
    (chisquare : List ℝ → List ℝ → ℝ × ℝ) (alpha confidence_level : ℝ)
    (h : st.observed_distribution = none) :
    chiSquareTest chisquare st alpha = .error "Must run analyze() first" ∧
    kolmogorovSmirnovTest st confidence_level = .error "Must run analyze() first" ∧
    meanAbsoluteDeviation st = .error "Must run analyze() first" := by
  refine ⟨?_, ?_, ?_⟩ <;>
    simp [chiSquareTest, kolmogorovSmirnovTest, meanAbsoluteDeviation, h]

/-- Witness for C9 at the freshly initialised analyzer. -/
theorem test_methods_require_analyze_witness :
    chiSquareTest (fun _ _ => (0, 0)) initState 0.05 = .error "Must run analyze() first" ∧
    kolmogorovSmirnovTest initState 0.95 = .error "Must run analyze() first" ∧
    meanAbsoluteDeviation initState = .error "Must run analyze() first" :=
  test_methods_require_analyze initState (fun _ _ => (0, 0)) 0.05 0.95 rfl

/-- C8: on an analyzed instance, a confidence level outside
{0.90, 0.95, 0.99} makes the KS test fail with the invalid-confidence
error, before any cumulative distribution or statistic is computed (the
result carries no statistic), and the critical-value table is undefined
exactly outside that set. -/
theorem kolmogorovSmirnovTest_invalid_confidence (st : AnalyzerState)
    (obs : ℕ → ℝ) (confidence_level : ℝ)
    (hobs : st.observed_distribution = some obs)
    (hc : ¬(confidence_level = 0.90 ∨ confidence_level = 0.95 ∨ confidence_level = 0.99)) :
    kolmogorovSmirnovTest st confidence_level =
      .error "Invalid confidence level. Choose from [0.9, 0.95, 0.99]" ∧
    criticalValuesMap confidence_level = none := by
  have hmap : criticalValuesMap confidence_level = none := by
    push_neg at hc
    simp [criticalValuesMap, hc.1, hc.2.1, hc.2.2]
  exact ⟨by simp [kolmogorovSmirnovTest, hobs, hmap], hmap⟩

/-- Witness for C8 at confidence level 0.80. -/
theorem kolmogorovSmirnovTest_invalid_confidence_witness :
    kolmogorovSmirnovTest someAnalyzedState 0.80 =
      .error "Invalid confidence level. Choose from [0.9, 0.95, 0.99]" :=
  (kolmogorovSmirnovTest_invalid_confidence someAnalyzedState
    (calculateObservedDistribution [1]) 0.80 rfl (by norm_num)).1

/-- Counts of digits 1..9 sum to the list length when every element is a
digit 1..9. -/
lemma sum_count_eq_length (l : List ℕ) (h : ∀ x ∈ l, 1 ≤ x ∧ x ≤ 9) :
    (∑ d in Finset.Icc 1 9, l.count d) = l.length := by
  induction l with
  | nil => simp
  | cons a t ih =>
    have ha := h a (List.mem_cons_self a t)
    have ht : ∀ x ∈ t, 1 ≤ x ∧ x ≤ 9 := fun x hx => h x (List.mem_cons_of_mem a hx)
    simp only [List.count_cons, List.length_cons]
    rw [Finset.sum_add_distrib, ih ht]
    have h1 : (∑ x in Finset.Icc 1 9, if a = x then 1 else 0) = 1 := by
      rw [Finset.sum_ite_eq (Finset.Icc 1 9) a (fun _ => 1)]
      simp [Finset.mem_Icc.mpr ha]
    simp only [beq_iff_eq]
    omega

/-- C6: the observed distribution is defined on all nine digits (with value
`count / total`, hence zero for a digit absent from the data); for a
non-empty series of digits 1..9 the nine proportions sum to exactly 1, and
for the empty series every proportion is zero. -/
theorem calculateObservedDistribution_invariants (l : List ℕ) :
    ((∀ x ∈ l, 1 ≤ x ∧ x ≤ 9) → l ≠ [] →
      ∑ d in Finset.Icc 1 9, calculateObservedDistribution l d = 1) ∧
    (∀ d, calculateObservedDistribution [] d = 0) ∧
    (∀ d, 1 ≤ d → d ≤ 9 → d ∉ l → calculateObservedDistribution l d = 0) := by
  refine ⟨fun h hne => ?_, fun d => by simp [calculateObservedDistribution],
    fun d h1 h9 hd => ?_⟩
  · have hlen : (l.length : ℝ) ≠ 0 :=
      Nat.cast_ne_zero.mpr (List.length_pos.mpr hne).ne'
    calc ∑ d in Finset.Icc 1 9, calculateObservedDistribution l d
        = ∑ d in Finset.Icc 1 9, (l.count d : ℝ) / l.length := by
          apply Finset.sum_congr rfl
          intro d hd
          rw [Finset.mem_Icc] at hd
          simp [calculateObservedDistribution, hne, hd.1, hd.2]
      _ = (∑ d in Finset.Icc 1 9, (l.count d : ℝ)) / l.length := by
          rw [Finset.sum_div]
      _ = 1 := by
          rw [← Nat.cast_sum, sum_count_eq_length l h, div_self hlen]
  · by_cases hne : l = []
    · simp [calculateObservedDistribution, hne]
    · simp [calculateObservedDistribution, hne, h1, h9,
        List.count_eq_zero_of_not_mem hd]

/-- Witness for C6 on the series `[1, 1, 2]`. -/
theorem calculateObservedDistribution_invariants_witness :
    ∑ d in Finset.Icc 1 9, calculateObservedDistribution [1, 1, 2] d = 1 :=
  (calculateObservedDistribution_invariants [1, 1, 2]).1 (by decide) (by decide)

/-- Rewriting of one theoretical-distribution term as a difference of
logarithms, for the telescoping sum. -/
lemma theoretical_term (i : ℕ) :
    calculateTheoreticalDistribution (1 + i) =
      Real.logb 10 ((i : ℝ) + 2) - Real.logb 10 ((i : ℝ) + 1) := by
  unfold calculateTheoreticalDistribution
  have hne : ((i : ℝ) + 1) ≠ 0 := by positivity
  have harg : (1 : ℝ) + 1 / (((1 : ℕ) + i : ℕ) : ℝ) = ((i : ℝ) + 2) / ((i : ℝ) + 1) := by
    push_cast
    field_simp
    ring
  rw [harg, Real.logb_div (by positivity) hne]

/-- The nine theoretical Benford probabilities sum to exactly 1. -/
lemma theoretical_sum_eq_one :
    ∑ d in Finset.Icc 1 9, calculateTheoreticalDistribution d = 1 := by
  rw [show (Finset.Icc 1 9 : Finset ℕ) = Finset.Ico 1 10 from (Nat.Ico_succ_right 1 9).symm,
    Finset.sum_Ico_eq_sum_range]
  norm_num
  calc ∑ i in Finset.range 9, calculateTheoreticalDistribution (1 + i)
      = ∑ i in Finset.range 9,
          ((fun n : ℕ => Real.logb 10 ((n : ℝ) + 1)) (i + 1) -
            (fun n : ℕ => Real.logb 10 ((n : ℝ) + 1)) i) := by
        refine Finset.sum_congr rfl (fun i _ => ?_)
        rw [theoretical_term i]
        push_cast
        ring_nf
    _ = Real.logb 10 ((9 : ℕ) + 1) - Real.logb 10 ((0 : ℕ) + 1) := by
        exact Finset.sum_range_sub (fun n : ℕ => Real.logb 10 ((n : ℝ) + 1)) 9
    _ = 1 := by
        norm_num [Real.logb_self_eq_one]

/-- C7: the theoretical distribution maps each digit d to `log10 (1 + 1/d)`
(the dict is built for exactly the keys 1..9; the function model extends the
same formula to all naturals), its nine values sum to exactly 1 (hence
within 1e-9 of 1), it is set at construction, and no `analyze` call ever
modifies it. -/
theorem calculateTheoreticalDistribution_correct :
    (∀ d : ℕ, calculateTheoreticalDistribution d = Real.logb 10 (1 + 1 / d)) ∧
    (∑ d in Finset.Icc 1 9, calculateTheoreticalDistribution d = 1) ∧
    |(∑ d in Finset.Icc 1 9, calculateTheoreticalDistribution d) - 1| ≤ 1e-9 ∧
    initState.theoretical_distribution = calculateTheoreticalDistribution ∧
    (∀ (chisquare : List ℝ → List ℝ → ℝ × ℝ) (st : AnalyzerState) (df : DataFrame)
      (field : String) (alpha ks_confidence : ℝ),
      ((analyze chisquare st df field alpha ks_confidence).1).theoretical_distribution =
        st.theoretical_distribution) := by
  refine ⟨fun d => rfl, theoretical_sum_eq_one, ?_, rfl, ?_⟩
  · rw [theoretical_sum_eq_one]
    norm_num
  · intro chisquare st df field alpha ks_confidence
    rcases hl : df.lookup field with _ | col <;> simp only [analyze, hl]
    split
    · rfl
    · split
      · rfl
      · split
        · rfl
        · split <;> rfl

/-- Expansion of a sum over the digit range 1..9. -/
lemma sum_Icc_nine (f : ℕ → ℝ) :
    ∑ d in Finset.Icc 1 9, f d =
      f 1 + f 2 + f 3 + f 4 + f 5 + f 6 + f 7 + f 8 + f 9 := by
  rw [show (Finset.Icc 1 9 : Finset ℕ) = Finset.Ico 1 10 from (Nat.Ico_succ_right 1 9).symm,
    Finset.sum_Ico_eq_sum_range]
  norm_num [Finset.sum_range_succ]

/-- C4: on an analyzed instance the MAD test returns the mean over digits
1..9 of the absolute observed-theoretical deviations, labelled by exactly
the four conformity bands (strict upper bounds 0.006, 0.012, 0.015), so
that 0.005, 0.010, 0.013 and 0.02 fall in the four bands respectively. -/
theorem meanAbsoluteDeviation_correct (st : AnalyzerState) (obs : ℕ → ℝ)
    (hobs : st.observed_distribution = some obs) :
    ∃ r : MADResult, meanAbsoluteDeviation st = .ok r ∧
      r.mad = (∑ d in Finset.Icc 1 9, |obs d - st.theoretical_distribution d|) / 9 ∧
      r.conformity_level = madConformity r.mad ∧
      (∀ m : ℝ, m < 0.006 →
        madConformity m = "Low Dispersion: Indicates a very close fit to Benford\x27s Law.") ∧
      (∀ m : ℝ, 0.006 ≤ m → m < 0.012 →
        madConformity m = "Acceptable Dispersion: Indicates a good fit to Benford\x27s Law, typical for clean data.") ∧
      (∀ m : ℝ, 0.012 ≤ m → m < 0.015 →
        madConformity m = "Marginal Dispersion: Suggests some deviation from Benford\x27s Law, which may be acceptable.") ∧
      (∀ m : ℝ, 0.015 ≤ m →
        madConformity m = "High Dispersion: Indicates significant deviation from Benford\x27s Law, suggesting potential data anomalies.") ∧
      madConformity 0.005 = "Low Dispersion: Indicates a very close fit to Benford\x27s Law." ∧
      madConformity 0.010 = "Acceptable Dispersion: Indicates a good fit to Benford\x27s Law, typical for clean data." ∧
      madConformity 0.013 = "Marginal Dispersion: Suggests some deviation from Benford\x27s Law, which may be acceptable." ∧
      madConformity 0.02 = "High Dispersion: Indicates significant deviation from Benford\x27s Law, suggesting potential data anomalies." := by
  have low : ∀ m : ℝ, m < 0.006 → madConformity m =
      "Low Dispersion: Indicates a very close fit to Benford\x27s Law." :=
    fun m h => by rw [madConformity, if_pos h]
  have acc : ∀ m : ℝ, 0.006 ≤ m → m < 0.012 → madConformity m =
      "Acceptable Dispersion: Indicates a good fit to Benford\x27s Law, typical for clean data." :=
    fun m h1 h2 => by rw [madConformity, if_neg (by linarith), if_pos h2]
  have mar : ∀ m : ℝ, 0.012 ≤ m → m < 0.015 → madConformity m =
      "Marginal Dispersion: Suggests some deviation from Benford\x27s Law, which may be acceptable." :=
    fun m h1 h2 => by
      rw [madConformity, if_neg (by linarith), if_neg (by linarith), if_pos h2]
  have high : ∀ m : ℝ, 0.015 ≤ m → madConformity m =
      "High Dispersion: Indicates significant deviation from Benford\x27s Law, suggesting potential data anomalies." :=
    fun m h => by
      rw [madConformity, if_neg (by linarith), if_neg (by linarith), if_neg (by linarith)]
  unfold meanAbsoluteDeviation
  rw [hobs]
  refine ⟨_, rfl, ?_, rfl, low, acc, mar, high,
    low _ (by norm_num), acc _ (by norm_num) (by norm_num),
    mar _ (by norm_num) (by norm_num), high _ (by norm_num)⟩
  rw [sum_Icc_nine]
  norm_num [List.range']
  ring

/-- Witness for C4 on an analyzed instance. -/
theorem meanAbsoluteDeviation_correct_witness :
    ∃ r : MADResult, meanAbsoluteDeviation someAnalyzedState = .ok r ∧
      r.conformity_level = madConformity r.mad := by
  obtain ⟨r, h1, _, h3, _⟩ :=
    meanAbsoluteDeviation_correct someAnalyzedState (calculateObservedDistribution [1]) rfl
  exact ⟨r, h1, h3⟩

/-- C2: the verdict is a two-of-three vote over the conditions chi-square
not significant, KS not significant, MAD below 0.015: when at least two
hold the summary says the data likely follows Benford with the MAD
conformity label, otherwise that it likely does not follow with multiple
tests indicating deviation. -/
theorem generateSummary_majority_vote (chi2_result : ChiSquareResult)
    (ks_result : KSResult) (mad_result : MADResult) :
    (((¬chi2_result.significant ∧ ¬ks_result.significant) ∨
      (¬chi2_result.significant ∧ mad_result.mad < 0.015) ∨
      (¬ks_result.significant ∧ mad_result.mad < 0.015)) →
      generateSummary chi2_result ks_result mad_result =
        "The data likely follows Benford\x27s Law. " ++ mad_result.conformity_level
          ++ " detected.") ∧
    (¬((¬chi2_result.significant ∧ ¬ks_result.significant) ∨
      (¬chi2_result.significant ∧ mad_result.mad < 0.015) ∨
      (¬ks_result.significant ∧ mad_result.mad < 0.015)) →
      generateSummary chi2_result ks_result mad_result =
        "The data likely does not follow Benford\x27s Law. Multiple tests indicate deviation.") := by
  by_cases h1 : chi2_result.significant <;> by_cases h2 : ks_result.significant <;>
    by_cases h3 : mad_result.mad < 0.015 <;>
    constructor <;> intro h <;>
    first
      | (simp [generateSummary, h1, h2, h3]; done)
      | (exfalso; tauto)

/-- Witness for C2: chi-square significant but the other two conditions
favourable gives the follows verdict. -/
theorem generateSummary_majority_vote_witness :
    generateSummary ⟨0, 1, 8, False⟩ ⟨0, 1, 0.95, False⟩ ⟨0.01, "x"⟩ =
      "The data likely follows Benford\x27s Law. x detected." :=
  (generateSummary_majority_vote ⟨0, 1, 8, False⟩ ⟨0, 1, 0.95, False⟩ ⟨0.01, "x"⟩).1
    (Or.inl ⟨not_false, not_false⟩)

/-- The running-sum list built by the KS loop equals the list of partial
sums over the digit intervals 1..d. -/
lemma cumul_list (f : ℕ → ℝ) :
    ((List.range' 1 9).scanl (fun acc d => acc + f d) 0).tail =
      [∑ i in Finset.Icc 1 1, f i, ∑ i in Finset.Icc 1 2, f i, ∑ i in Finset.Icc 1 3, f i,
       ∑ i in Finset.Icc 1 4, f i, ∑ i in Finset.Icc 1 5, f i, ∑ i in Finset.Icc 1 6, f i,
       ∑ i in Finset.Icc 1 7, f i, ∑ i in Finset.Icc 1 8, f i, ∑ i in Finset.Icc 1 9, f i] := by
  have s1 : ∑ i in Finset.Icc 1 1, f i = f 1 := by simp
  have s2 : ∑ i in Finset.Icc 1 2, f i = f 1 + f 2 := by
    rw [show (2:ℕ) = 1 + 1 from rfl, Finset.sum_Icc_succ_top (by norm_num), s1]
  have s3 : ∑ i in Finset.Icc 1 3, f i = f 1 + f 2 + f 3 := by
    rw [show (3:ℕ) = 2 + 1 from rfl, Finset.sum_Icc_succ_top (by norm_num), s2]
  have s4 : ∑ i in Finset.Icc 1 4, f i = f 1 + f 2 + f 3 + f 4 := by
    rw [show (4:ℕ) = 3 + 1 from rfl, Finset.sum_Icc_succ_top (by norm_num), s3]
  have s5 : ∑ i in Finset.Icc 1 5, f i = f 1 + f 2 + f 3 + f 4 + f 5 := by
    rw [show (5:ℕ) = 4 + 1 from rfl, Finset.sum_Icc_succ_top (by norm_num), s4]
  have s6 : ∑ i in Finset.Icc 1 6, f i = f 1 + f 2 + f 3 + f 4 + f 5 + f 6 := by
    rw [show (6:ℕ) = 5 + 1 from rfl, Finset.sum_Icc_succ_top (by norm_num), s5]
  have s7 : ∑ i in Finset.Icc 1 7, f i = f 1 + f 2 + f 3 + f 4 + f 5 + f 6 + f 7 := by
    rw [show (7:ℕ) = 6 + 1 from rfl, Finset.sum_Icc_succ_top (by norm_num), s6]
  have s8 : ∑ i in Finset.Icc 1 8, f i = f 1 + f 2 + f 3 + f 4 + f 5 + f 6 + f 7 + f 8 := by
    rw [show (8:ℕ) = 7 + 1 from rfl, Finset.sum_Icc_succ_top (by norm_num), s7]
  have s9 : ∑ i in Finset.Icc 1 9, f i = f 1 + f 2 + f 3 + f 4 + f 5 + f 6 + f 7 + f 8 + f 9 := by
    rw [show (9:ℕ) = 8 + 1 from rfl, Finset.sum_Icc_succ_top (by norm_num), s8]
  rw [s1, s2, s3, s4, s5, s6, s7, s8, s9]
  simp [List.range', List.scanl]

/-- The maximum computed by the KS loop over zipped cumulative lists equals
the supremum over digits 1..9 of the absolute differences of partial sums. -/
lemma ks_statistic_eq (f g : ℕ → ℝ) :
    pyMax (((((List.range' 1 9).scanl (fun acc d => acc + f d) 0).tail).zip
        (((List.range' 1 9).scanl (fun acc d => acc + g d) 0).tail)).map
          (fun p => |p.1 - p.2|)) =
      (Finset.Icc 1 9).sup' ⟨1, by decide⟩
        (fun d => |(∑ i in Finset.Icc 1 d, f i) - ∑ i in Finset.Icc 1 d, g i|) := by
  rw [cumul_list f, cumul_list g]
  simp only [List.zip_cons_cons, List.zip_nil_right, List.map_cons, List.map_nil, pyMax,
    List.foldl_cons, List.foldl_nil]
  apply le_antisymm
  · simp only [max_le_iff]
    repeat' constructor
    all_goals
      first
        | exact Finset.le_sup' (fun d => |(∑ i in Finset.Icc 1 d, f i) - ∑ i in Finset.Icc 1 d, g i|) (show (1:ℕ) ∈ Finset.Icc 1 9 from by decide)
        | exact Finset.le_sup' (fun d => |(∑ i in Finset.Icc 1 d, f i) - ∑ i in Finset.Icc 1 d, g i|) (show (2:ℕ) ∈ Finset.Icc 1 9 from by decide)
        | exact Finset.le_sup' (fun d => |(∑ i in Finset.Icc 1 d, f i) - ∑ i in Finset.Icc 1 d, g i|) (show (3:ℕ) ∈ Finset.Icc 1 9 from by decide)
        | exact Finset.le_sup' (fun d => |(∑ i in Finset.Icc 1 d, f i) - ∑ i in Finset.Icc 1 d, g i|) (show (4:ℕ) ∈ Finset.Icc 1 9 from by decide)
        | exact Finset.le_sup' (fun d => |(∑ i in Finset.Icc 1 d, f i) - ∑ i in Finset.Icc 1 d, g i|) (show (5:ℕ) ∈ Finset.Icc 1 9 from by decide)
        | exact Finset.le_sup' (fun d => |(∑ i in Finset.Icc 1 d, f i) - ∑ i in Finset.Icc 1 d, g i|) (show (6:ℕ) ∈ Finset.Icc 1 9 from by decide)
        | exact Finset.le_sup' (fun d => |(∑ i in Finset.Icc 1 d, f i) - ∑ i in Finset.Icc 1 d, g i|) (show (7:ℕ) ∈ Finset.Icc 1 9 from by decide)
        | exact Finset.le_sup' (fun d => |(∑ i in Finset.Icc 1 d, f i) - ∑ i in Finset.Icc 1 d, g i|) (show (8:ℕ) ∈ Finset.Icc 1 9 from by decide)
        | exact Finset.le_sup' (fun d => |(∑ i in Finset.Icc 1 d, f i) - ∑ i in Finset.Icc 1 d, g i|) (show (9:ℕ) ∈ Finset.Icc 1 9 from by decide)
  · apply Finset.sup'_le
    intro b hb
    rw [Finset.mem_Icc] at hb
    obtain ⟨hb1, hb2⟩ := hb
    interval_cases b <;>
      · repeat
          first
            | exact le_refl _
            | exact le_max_right _ _
            | exact le_max_left _ _
            | refine le_trans ?_ (le_max_left _ _)

/-- C3: on an analyzed instance with a supported confidence level, the KS
test returns the maximum over digits 1..9 of the absolute difference of the
two cumulative (running-sum) distributions, a critical value equal to the
table multiplier divided by the square root of the valid sample size (so
1.36 divided by sqrt 1000 for N equal to 1000 at confidence 0.95), a
significance flag holding exactly when the statistic exceeds the critical
value, and the table maps 0.90, 0.95, 0.99 to 1.22, 1.36, 1.63. -/
theorem kolmogorovSmirnovTest_correct (st : AnalyzerState) (obs : ℕ → ℝ)
    (l : List ℕ) (c m : ℝ)
    (hobs : st.observed_distribution = some obs)
    (hvalid : st.valid_data = some l)
    (hm : criticalValuesMap c = some m) :
    ∃ r : KSResult, kolmogorovSmirnovTest st c = .ok r ∧
      r.statistic = (Finset.Icc 1 9).sup' ⟨1, by decide⟩
        (fun d => |(∑ i in Finset.Icc 1 d, obs i) -
          ∑ i in Finset.Icc 1 d, st.theoretical_distribution i|) ∧
      r.critical_value = m / Real.sqrt l.length ∧
      (r.significant ↔ r.statistic > r.critical_value) ∧
      r.confidence_level = c ∧
      criticalValuesMap 0.90 = some 1.22 ∧
      criticalValuesMap 0.95 = some 1.36 ∧
      criticalValuesMap 0.99 = some 1.63 ∧
      (c = 0.95 → l.length = 1000 → r.critical_value = 1.36 / Real.sqrt 1000) := by
  have t90 : criticalValuesMap 0.90 = some 1.22 := by norm_num [criticalValuesMap]
  have t95 : criticalValuesMap 0.95 = some 1.36 := by norm_num [criticalValuesMap]
  have t99 : criticalValuesMap 0.99 = some 1.63 := by norm_num [criticalValuesMap]
  unfold kolmogorovSmirnovTest
  rw [hobs, hm]
  refine ⟨_, rfl, ks_statistic_eq obs st.theoretical_distribution, ?_, Iff.rfl, rfl,
    t90, t95, t99, ?_⟩
  · rw [hvalid]
    rfl
  · intro hc hn
    rw [hvalid]
    have hm36 : m = 1.36 := by
      rw [hc, t95] at hm
      exact (Option.some.injEq _ _ ▸ hm).symm
    rw [hm36]
    norm_num [hn]

/-- Witness for C3 at confidence level 0.95 on an analyzed instance. -/
theorem kolmogorovSmirnovTest_correct_witness :
    ∃ r : KSResult, kolmogorovSmirnovTest someAnalyzedState 0.95 = .ok r ∧
      (r.significant ↔ r.statistic > r.critical_value) := by
  obtain ⟨r, h1, _, _, h4, _⟩ :=
    kolmogorovSmirnovTest_correct someAnalyzedState (calculateObservedDistribution [1])
      [1] 0.95 1.36 rfl rfl (by norm_num [criticalValuesMap])
  exact ⟨r, h1, h4⟩

/-- C10: when `analyze` is given a field that exists but filters to an empty
sample, it raises the no-valid-data error AFTER having overwritten
`field_name` and `raw_data` with the new data, while `observed_distribution`
and `valid_data` keep the values of the previous successful analysis;
consequently the standalone test methods on the same instance do not raise
the not-analyzed error and return the results computed from the previous
data. -/
theorem analyze_not_atomic_on_failure (chisquare : List ℝ → List ℝ → ℝ × ℝ)
    (st : AnalyzerState) (df : DataFrame) (field : String)
    (alpha ks_confidence : ℝ) (col : List (Option ℚ)) (obs : ℕ → ℝ)
    (hcol : df.lookup field = some col)
    (hempty : extractFirstDigits col = [])
    (hobs : st.observed_distribution = some obs) :
    (analyze chisquare st df field alpha ks_confidence).2 =
      .error ("No valid data found in field \x27" ++ field
        ++ "\x27 for Benford\x27s Law analysis") ∧
    (analyze chisquare st df field alpha ks_confidence).1.field_name = some field ∧
    (analyze chisquare st df field alpha ks_confidence).1.raw_data = some col ∧
    (analyze chisquare st df field alpha ks_confidence).1.observed_distribution =
      st.observed_distribution ∧
    (analyze chisquare st df field alpha ks_confidence).1.valid_data = st.valid_data ∧
    meanAbsoluteDeviation (analyze chisquare st df field alpha ks_confidence).1 =
      meanAbsoluteDeviation st ∧
    (∃ r, meanAbsoluteDeviation (analyze chisquare st df field alpha ks_confidence).1 = .ok r) ∧
    chiSquareTest chisquare (analyze chisquare st df field alpha ks_confidence).1 alpha =
      chiSquareTest chisquare st alpha ∧
    kolmogorovSmirnovTest (analyze chisquare st df field alpha ks_confidence).1 ks_confidence =
      kolmogorovSmirnovTest st ks_confidence := by
  have hred : analyze chisquare st df field alpha ks_confidence =
      ({ st with field_name := some field, raw_data := some col },
        .error ("No valid data found in field \x27" ++ field
          ++ "\x27 for Benford\x27s Law analysis")) := by
    simp [analyze, hcol, hempty]
  rw [hred]
  refine ⟨rfl, rfl, rfl, rfl, rfl, rfl, ?_, rfl, rfl⟩
  simp only [meanAbsoluteDeviation]
  rw [show ({ st with field_name := some field, raw_data := some col } :
    AnalyzerState).observed_distribution = some obs from hobs]
  exact ⟨_, rfl⟩

/-- Witness for C10: an analyzed instance fed an all-zero column. -/
theorem analyze_not_atomic_on_failure_witness :
    (analyze (fun _ _ => (0, 0)) someAnalyzedState [("b", [some 0])] "b" 0.05 0.95).2 =
      .error ("No valid data found in field \x27" ++ "b"
        ++ "\x27 for Benford\x27s Law analysis") ∧
    (∃ r, meanAbsoluteDeviation
      (analyze (fun _ _ => (0, 0)) someAnalyzedState [("b", [some 0])] "b" 0.05 0.95).1 =
        .ok r) := by
  obtain ⟨h1, _, _, _, _, _, h7, _, _⟩ :=
    analyze_not_atomic_on_failure (fun _ _ => (0, 0)) someAnalyzedState
      [("b", [some 0])] "b" 0.05 0.95 [some 0] (calculateObservedDistribution [1])
      rfl (by decide) rfl
  exact ⟨h1, h7⟩

/-- Dict assignment of a fresh key appends the pair at the end. -/
lemma dictSet_of_not_mem {α : Type} (l : List (String × α)) (k : String) (v : α)
    (h : k ∉ l.map Prod.fst) : dictSet l k v = l ++ [(k, v)] := by
  unfold dictSet
  rw [if_neg]
  intro hc
  rw [List.any_eq_true] at hc
  obtain ⟨p, hp, he⟩ := hc
  exact h (List.mem_map.mpr ⟨p, hp, of_decide_eq_true he⟩)

/-- The batch loop yields one result entry per requested field, appended in
request order, for pairwise distinct fields not already present in the
accumulator. -/
lemma batchAnalyzeAux_keys (chisquare : List ℝ → List ℝ → ℝ × ℝ) (df : DataFrame)
    (alpha ks_confidence : ℝ) :
    ∀ (fields : List String) (st : AnalyzerState)
      (results : List (String × Except String AnalysisReport)),
      fields.Nodup → (∀ f ∈ fields, f ∉ results.map Prod.fst) →
      ((batchAnalyzeAux chisquare st df fields alpha ks_confidence results).2).map Prod.fst =
        results.map Prod.fst ++ fields := by
  intro fields
  induction fields with
  | nil => intro st results _ _; simp [batchAnalyzeAux]
  | cons g rest ih =>
    intro st results hnodup hmem
    have hg : g ∉ results.map Prod.fst := hmem g (List.mem_cons_self g rest)
    have hgrest : g ∉ rest := (List.nodup_cons.mp hnodup).1
    simp only [batchAnalyzeAux]
    rw [dictSet_of_not_mem _ _ _ hg]
    rw [ih _ _ (List.nodup_cons.mp hnodup).2 ?_]
    · simp
    · intro f hf
      rw [List.map_append]
      simp only [List.mem_append, List.map_cons, List.map_nil, List.mem_singleton]
      rintro (hfl | hfg)
      · exact hmem f (List.mem_cons_of_mem g hf) hfl
      · exact hgrest (hfg ▸ hf)

/-- C5: `batch_analyze` returns one entry per requested field in the
requested order (for pairwise distinct field names, matching the keys of a
Python dict); the call itself always returns a result mapping rather than
raising, a failing field maps to an error record carrying the error message,
and the remaining fields are still analyzed to full reports, as shown on a
table with one good field and one missing field. -/
theorem batchAnalyze_isolation :
    (∀ (chisquare : List ℝ → List ℝ → ℝ × ℝ) (st : AnalyzerState) (df : DataFrame)
        (fields : List String) (alpha ks_confidence : ℝ), fields.Nodup →
      ((batchAnalyze chisquare st df fields alpha ks_confidence).2).map Prod.fst = fields) ∧
    (∃ rep : AnalysisReport,
      (batchAnalyze (fun _ _ => (0, 0)) initState
          [("good_field", [some 123, some 456, some 789])]
          ["good_field", "missing_field"] 0.05 0.95).2 =
        [("good_field", Except.ok rep),
         ("missing_field", Except.error ("Field \x27" ++ "missing_field"
           ++ "\x27 not found in DataFrame columns: "
           ++ pyStrColumns ["good_field"]))] ∧
      rep.field_name = "good_field" ∧ rep.valid_values = 3) := by
  constructor
  · intro chisquare st df fields alpha ks_confidence hnodup
    unfold batchAnalyze
    simpa using batchAnalyzeAux_keys chisquare df alpha ks_confidence fields st []
      hnodup (by simp)
  · have hgood : ∃ rep : AnalysisReport,
        analyze (fun _ _ => (0, 0)) initState
          [("good_field", [some 123, some 456, some 789])] "good_field" 0.05 0.95 =
          (({ initState with
              field_name := some "good_field"
              raw_data := some [some 123, some 456, some 789]
              valid_data := some [1, 4, 7]
              observed_distribution := some (calculateObservedDistribution [1, 4, 7]) } :
                AnalyzerState),
            Except.ok rep) ∧
        rep.field_name = "good_field" ∧ rep.valid_values = 3 := by
      have hlook : List.lookup "good_field"
          ([("good_field", [some 123, some 456, some 789])] : DataFrame) =
          some [some 123, some 456, some 789] := by decide
      have hex : extractFirstDigits [some 123, some 456, some 789] = [1, 4, 7] := by decide
      have t95 : criticalValuesMap 0.95 = some 1.36 := by norm_num [criticalValuesMap]
      simp only [analyze, hlook, hex]
      rw [if_neg (by decide : ¬([1, 4, 7] : List ℕ) = [])]
      simp only [chiSquareTest, kolmogorovSmirnovTest, meanAbsoluteDeviation, t95]
      exact ⟨_, rfl, rfl, rfl⟩
    obtain ⟨rep, ha, hname, hvalid⟩ := hgood
    refine ⟨rep, ?_, hname, hvalid⟩
    have hmiss : List.lookup "missing_field"
        ([("good_field", [some 123, some 456, some 789])] : DataFrame) = none := by decide
    simp only [batchAnalyze, batchAnalyzeAux, ha]
    simp only [analyze, hmiss]
    rw [dictSet_of_not_mem ([]) "good_field" _ (by simp)]
    rw [dictSet_of_not_mem _ "missing_field" _ (by simp)]
    simp [pyStrColumns]

/-- Witness for C5: the two-field batch yields exactly the two requested
entries in order. -/
theorem batchAnalyze_isolation_witness :
    ((batchAnalyze (fun _ _ => (0, 0)) initState
        [("good_field", [some 123, some 456, some 789])]
        ["good_field", "missing_field"] 0.05 0.95).2).map Prod.fst =
      ["good_field", "missing_field"] :=
  batchAnalyze_isolation.1 (fun _ _ => (0, 0)) initState
    [("good_field", [some 123, some 456, some 789])]
    ["good_field", "missing_field"] 0.05 0.95 (by decide)

end BenfordsLaw
